import Mathlib

/-!
Shallow embedding of `src/frontend/app/src/composables/status.ts`
(the `useStatusUpdater` composable) and a verification of its
specification.

The composable closes over a `defaultSection` and an external status
store; here every operation takes the default section and the store
state explicitly, and mutating operations return the new store state.
-/

namespace RotkiStatus

/-- Modelled from the spec: the `Status` enumeration lives in
`@/types/status`, which is not part of the provided source.  The spec
confirms a sentinel `NONE` ("never loaded"), a loading state and a
positive loaded state (`SUCCESS` in the spec's example scenario). -/
inductive Status where
  | NONE
  | LOADING
  | SUCCESS
deriving DecidableEq, Repr

/-- Modelled from the spec: `Section` is an opaque identifier
(string or enum) naming a UI region. -/
abbrev Section := String

/-- The conceptual `StatusKey` of the spec: the pair
(Section, Subsection-or-absent) used to look up a Status. -/
abbrev StatusKey := Section × Option String

/-- Modelled from the spec: the external reactive status store
(`useStatusStore`) is not part of the provided source.  It owns the
mapping from `StatusKey` to the current `Status` and a derived
per-key loading predicate. -/
structure StoreState where
  statuses : StatusKey → Status
  loadingMap : StatusKey → Bool

/-- Modelled from the spec: the store's
`setStatus(entry: \x7bsection, subsection?, status\x7d)` operation,
which writes `status` into the store at that key. -/
def StoreState.setStatus (σ : StoreState) (sec : Section)
    (sub : Option String) (st : Status) : StoreState :=
  { σ with statuses := fun k => if k = (sec, sub) then st else σ.statuses k }

/-- Modelled from the spec: the store's `getStatus(section, subsection?)`
read, composed with the reactive `get` unwrapping used at every call site. -/
def StoreState.getStatus (σ : StoreState) (sec : Section)
    (sub : Option String) : Status :=
  σ.statuses (sec, sub)

/-- Modelled from the spec: the store's `isLoading(section, subsection?)`
predicate, composed with the reactive `get` unwrapping used at every call site. -/
def StoreState.isLoading (σ : StoreState) (sec : Section)
    (sub : Option String) : Bool :=
  σ.loadingMap (sec, sub)

/-- The `Opts` interface: `\x7b section?: Section; subsection?: string \x7d`.
An omitted options record is the empty record, i.e. both fields absent. -/
structure Opts where
  section' : Option Section := none
  subsection : Option String := none

/-- The `updateStatus` closure (exported as `setStatus` on the handle):
destructures `\x7b section = defaultSection, subsection \x7d = opts` and
writes `status` into the store at that key. -/
def updateStatus (defaultSection : Section) (status : Status)
    (opts : Opts) (σ : StoreState) : StoreState :=
  σ.setStatus (opts.section'.getD defaultSection) opts.subsection status

/-- The `resetStatus` closure: destructures the options the same way and
writes `Status.NONE` into the store at that key. -/
def resetStatus (defaultSection : Section) (opts : Opts)
    (σ : StoreState) : StoreState :=
  σ.setStatus (opts.section'.getD defaultSection) opts.subsection Status.NONE

/-- The `loading` closure: `get(isLoading(section, subsection))`. -/
def loading (defaultSection : Section) (opts : Opts)
    (σ : StoreState) : Bool :=
  σ.isLoading (opts.section'.getD defaultSection) opts.subsection

/-- The `isFirstLoad` closure:
`get(getStatus(section, subsection)) === Status.NONE`. -/
def isFirstLoad (defaultSection : Section) (opts : Opts)
    (σ : StoreState) : Bool :=
  decide (σ.getStatus (opts.section'.getD defaultSection) opts.subsection = Status.NONE)

/-- The `fetchDisabled` closure:
`!(isFirstLoad(opts) || refresh) || loading(opts)`. -/
def fetchDisabled (defaultSection : Section) (refresh : Bool)
    (opts : Opts) (σ : StoreState) : Bool :=
  !(isFirstLoad defaultSection opts σ || refresh) || loading defaultSection opts σ

/-- The `getSectionStatus` closure (exported as `getStatus` on the handle):
`get(getStatus(section, subsection))`. -/
def getSectionStatus (defaultSection : Section) (opts : Opts)
    (σ : StoreState) : Status :=
  σ.getStatus (opts.section'.getD defaultSection) opts.subsection

/-- The option resolution rule as the spec states it: `section` resolves
to the explicit value if provided, else to `defaultSection`;
`subsection` resolves to the explicit value if provided, else to absent. -/
def resolveOpts (defaultSection : Section) (opts : Opts) : StatusKey :=
  (match opts.section' with
    | some s => s
    | none => defaultSection,
   opts.subsection)

/-- Result of one operation of the handle. -/
inductive OpResult where
  | unitR
  | boolR (b : Bool)
  | statusR (s : Status)
deriving DecidableEq, Repr

/-- One invocation of an operation of the handle returned by
`useStatusUpdater`, with its arguments. -/
inductive Op where
  | setStatusOp (status : Status) (opts : Opts)
  | resetStatusOp (opts : Opts)
  | loadingOp (opts : Opts)
  | isFirstLoadOp (opts : Opts)
  | fetchDisabledOp (refresh : Bool) (opts : Opts)
  | getStatusOp (opts : Opts)

/-- Running one operation of the handle against the current store
state: the result returned to the caller and the store state afterwards. -/
def runOp (defaultSection : Section) : Op → StoreState → OpResult × StoreState
  | .setStatusOp s opts, σ => (.unitR, updateStatus defaultSection s opts σ)
  | .resetStatusOp opts, σ => (.unitR, resetStatus defaultSection opts σ)
  | .loadingOp opts, σ => (.boolR (loading defaultSection opts σ), σ)
  | .isFirstLoadOp opts, σ => (.boolR (isFirstLoad defaultSection opts σ), σ)
  | .fetchDisabledOp r opts, σ => (.boolR (fetchDisabled defaultSection r opts σ), σ)
  | .getStatusOp opts, σ => (.statusR (getSectionStatus defaultSection opts σ), σ)

/-- A store with every key at `Status.NONE` and nothing loading. -/
def emptyStore : StoreState :=
  ⟨fun _ => Status.NONE, fun _ => false⟩

/-- Resolution computed by the operations (`Option.getD`) agrees with
the spec's resolution rule. -/
theorem resolveOpts_eq (d : Section) (opts : Opts) :
    resolveOpts d opts = (opts.section'.getD d, opts.subsection) := by
  cases h : opts.section' <;> simp [resolveOpts, h]

/-- C1: for every boolean `refresh`, options record and store state,
`fetchDisabled refresh opts` returns exactly
`NOT (isFirstLoad opts OR refresh) OR loading opts` over the same store
state; equivalently the result is `false` (fetch allowed) exactly when
`(isFirstLoad opts OR refresh)` holds and `loading opts` is false. -/
theorem fetchDisabled_formula (d : Section) (refresh : Bool)
    (opts : Opts) (σ : StoreState) :
    fetchDisabled d refresh opts σ
      = (!(isFirstLoad d opts σ || refresh) || loading d opts σ)
    ∧ (fetchDisabled d refresh opts σ = false
        ↔ (isFirstLoad d opts σ || refresh) = true ∧ loading d opts σ = false) := by
  refine ⟨rfl, ?_⟩
  cases h1 : isFirstLoad d opts σ <;> cases refresh <;>
    cases h2 : loading d opts σ <;> simp [fetchDisabled, h1, h2]

/-- C2: every operation of the handle resolves its options by the same
rule: the effective section is the explicit one when provided, else the
factory's `defaultSection`; the effective subsection is the explicit one
when provided, else absent; and an omitted options record resolves to
`(defaultSection, absent)`. -/
theorem option_resolution_uniform (d : Section) (s : Status)
    (refresh : Bool) (opts : Opts) (σ : StoreState) :
    updateStatus d s opts σ
      = σ.setStatus (resolveOpts d opts).1 (resolveOpts d opts).2 s
    ∧ resetStatus d opts σ
      = σ.setStatus (resolveOpts d opts).1 (resolveOpts d opts).2 Status.NONE
    ∧ loading d opts σ
      = σ.isLoading (resolveOpts d opts).1 (resolveOpts d opts).2
    ∧ isFirstLoad d opts σ
      = decide (σ.getStatus (resolveOpts d opts).1 (resolveOpts d opts).2 = Status.NONE)
    ∧ getSectionStatus d opts σ
      = σ.getStatus (resolveOpts d opts).1 (resolveOpts d opts).2
    ∧ fetchDisabled d refresh opts σ
      = (!(decide (σ.getStatus (resolveOpts d opts).1 (resolveOpts d opts).2 = Status.NONE)
            || refresh)
          || σ.isLoading (resolveOpts d opts).1 (resolveOpts d opts).2)
    ∧ (∀ sec sub, resolveOpts d ⟨some sec, sub⟩ = (sec, sub))
    ∧ (∀ sub, resolveOpts d ⟨none, sub⟩ = (d, sub))
    ∧ resolveOpts d {} = (d, none) := by
  rw [resolveOpts_eq]
  refine ⟨rfl, rfl, rfl, rfl, rfl, rfl, ?_, ?_, rfl⟩
  · intro sec sub
    simp [resolveOpts]
  · intro sub
    simp [resolveOpts]

/-- C3: `isFirstLoad opts` is true exactly when the status currently
held by the store at the resolved key equals `Status.NONE`, i.e. it
agrees with comparing `getSectionStatus opts` against `Status.NONE`. -/
theorem isFirstLoad_iff_none (d : Section) (opts : Opts) (σ : StoreState) :
    isFirstLoad d opts σ = decide (getSectionStatus d opts σ = Status.NONE)
    ∧ (isFirstLoad d opts σ = true ↔ getSectionStatus d opts σ = Status.NONE) := by
  refine ⟨rfl, ?_⟩
  simp [isFirstLoad, getSectionStatus]

/-- C4: `setStatus` (the `updateStatus` closure) writes its argument
into the store at the resolved key, and immediately afterwards, for a
status other than `Status.NONE`, `isFirstLoad` on the same options is
false. -/
theorem setStatus_writes (d : Section) (s : Status) (opts : Opts)
    (σ : StoreState) :
    (updateStatus d s opts σ).getStatus (opts.section'.getD d) opts.subsection = s
    ∧ (s ≠ Status.NONE → isFirstLoad d opts (updateStatus d s opts σ) = false) := by
  have hw : (updateStatus d s opts σ).getStatus
      (opts.section'.getD d) opts.subsection = s := by
    simp [updateStatus, StoreState.setStatus, StoreState.getStatus]
  refine ⟨hw, fun h => ?_⟩
  simp [isFirstLoad, hw, h]

/-- Witness for C4 at the spec's example scenario: default section
"balances", no subsection, `Status.SUCCESS`. -/
theorem setStatus_writes_witness :
    (updateStatus "balances" Status.SUCCESS {} emptyStore).getStatus
        ((Opts.mk none none).section'.getD "balances") (Opts.mk none none).subsection
      = Status.SUCCESS
    ∧ isFirstLoad "balances" {} (updateStatus "balances" Status.SUCCESS {} emptyStore)
      = false :=
  ⟨(setStatus_writes "balances" Status.SUCCESS {} emptyStore).1,
   (setStatus_writes "balances" Status.SUCCESS {} emptyStore).2 (by decide)⟩

/-- C5: `resetStatus opts` writes `Status.NONE` at the resolved key, so
an immediate `getStatus opts` on the same options yields `Status.NONE`. -/
theorem resetStatus_then_getStatus (d : Section) (opts : Opts) (σ : StoreState) :
    getSectionStatus d opts (resetStatus d opts σ) = Status.NONE := by
  simp [getSectionStatus, resetStatus, StoreState.setStatus, StoreState.getStatus]

/-- C6: with `refresh = true`, `fetchDisabled` coincides with `loading`
on the same options and store state. -/
theorem fetchDisabled_refresh_true (d : Section) (opts : Opts) (σ : StoreState) :
    fetchDisabled d true opts σ = loading d opts σ := by
  simp [fetchDisabled]

/-- C7: with `refresh = false`, `fetchDisabled` equals
`loading opts OR NOT isFirstLoad opts` on the same store state. -/
theorem fetchDisabled_refresh_false (d : Section) (opts : Opts) (σ : StoreState) :
    fetchDisabled d false opts σ
      = (loading d opts σ || !isFirstLoad d opts σ) := by
  simp [fetchDisabled, Bool.or_comm]

/-- C8: the read operations `loading`, `isFirstLoad`, `getStatus` and
`fetchDisabled` leave the store state unchanged; only `setStatus` and
`resetStatus` mutate it. -/
theorem reads_leave_store_unchanged (d : Section) (refresh : Bool)
    (opts : Opts) (σ : StoreState) :
    (runOp d (.loadingOp opts) σ).2 = σ
    ∧ (runOp d (.isFirstLoadOp opts) σ).2 = σ
    ∧ (runOp d (.fetchDisabledOp refresh opts) σ).2 = σ
    ∧ (runOp d (.getStatusOp opts) σ).2 = σ :=
  ⟨rfl, rfl, rfl, rfl⟩

/-- C9: `resetStatus opts` is the same store transformation as
`setStatus Status.NONE opts`: both resolve the same key and perform
the identical write. -/
theorem resetStatus_eq_setStatus_none (d : Section) (opts : Opts) (σ : StoreState) :
    resetStatus d opts σ = updateStatus d Status.NONE opts σ :=
  rfl

/-- C10: `setStatus` and `resetStatus` change at most the store entry
at the single resolved key: every other key holds the same status
before and after the call. -/
theorem writes_frame (d : Section) (s : Status) (opts : Opts)
    (σ : StoreState) (k : StatusKey) (h : k ≠ resolveOpts d opts) :
    (updateStatus d s opts σ).statuses k = σ.statuses k
    ∧ (resetStatus d opts σ).statuses k = σ.statuses k := by
  rw [resolveOpts_eq] at h
  constructor <;>
    simp [updateStatus, resetStatus, StoreState.setStatus, h]

/-- Witness for C10: writing at key ("balances", absent) leaves the
entry at key ("other", absent) untouched. -/
theorem writes_frame_witness :
    (updateStatus "balances" Status.SUCCESS {} emptyStore).statuses ("other", none)
      = emptyStore.statuses ("other", none)
    ∧ (resetStatus "balances" {} emptyStore).statuses ("other", none)
      = emptyStore.statuses ("other", none) :=
  writes_frame "balances" Status.SUCCESS {} emptyStore ("other", none) (by decide)

end RotkiStatus
